import Mathlib

/-!
Verification of the ciftify_recon_all surface-mesh build pipeline
(`src/ciftify/bin/ciftify_recon_all.py`).

The Python source is shallowly embedded: pure decision logic becomes Lean
functions, fatal `sys.exit(1)` branches become `Except` error values, and the
sequence of external-tool invocations performed by a stage becomes an explicit
trace (a `List` of actions).  Helper functions that live in other files of the
repository (`ciftify.filenames`, `ciftify.utils`) and are not part of the
given source are modelled from the specification and marked as such in their
doc comments.
-/

namespace CiftifyReconAll

/-! ## Resume decision engine (`Settings.__has_been_run_before`)

Source lines 340-367.  The Python method returns `True` (resample-only /
skip-main-workflow), returns `False` (full pipeline, after creating the
output root), or terminates the process with `sys.exit(1)`.  The four
outcomes are made explicit in an inductive type. -/

inductive ResumeDecision where
  | fullPipeline       -- returns False; output root was created
  | resampleOnly       -- returns True (skip_main_wf)
  | abortPrecondition  -- sys.exit(1): existing output ineligible / incomplete
  | abortMkdirFailed   -- sys.exit(1): could not create the output root
  deriving DecidableEq, Repr

/-- Embedding of `Settings.__has_been_run_before` (source lines 340-367).
`pathExists` is `os.path.exists(self.subject.path)`, `resample` is the
`--resample-to-T1w32k` flag, `marker` is the result of
`has_ciftify_recon_all_run` (the completeness marker check, a collaborator
from `ciftify.utils`), and `mkdirOk` is whether `os.makedirs` succeeds. -/
def has_been_run_before (pathExists resample marker mkdirOk : Bool) :
    ResumeDecision :=
  if pathExists then
    if resample then
      if marker then ResumeDecision.resampleOnly
      else ResumeDecision.abortPrecondition
    else ResumeDecision.abortPrecondition
  else
    if mkdirOk then ResumeDecision.fullPipeline
    else ResumeDecision.abortMkdirFailed

/-! ## Areal distortion (`calc_areal_distortion_gii`)

Source lines 1315-1344.  The distortion metric is produced by
`wb_command -metric-math "(ln(spherereg / sphere) / ln(2))"` applied
vertex-wise to the pre- and post-registration vertex-area maps. -/

/-- Embedding of the vertex-wise formula of `calc_areal_distortion_gii`
(source line 1334): `ln(spherereg / sphere) / ln(2)` where `sphere` is the
pre-registration vertex area and `spherereg` the post-registration vertex
area at the same vertex. -/
noncomputable def calc_areal_distortion (preVA regVA : ℝ) : ℝ :=
  Real.log (regVA / preVA) / Real.log 2

/-- Vertex-wise distortion map over whole vertex-area maps. -/
noncomputable def areal_distortion_map (preVA regVA : ℕ → ℝ) (v : ℕ) : ℝ :=
  calc_areal_distortion (preVA v) (regVA v)

/-! ## Medial-wall ROI merge
(`merge_subject_medial_wall_with_atlas_template`)

Source lines 1348-1371.  After resampling the atlas medial-wall ROI into the
subject's native space, the merge is
`wb_command -metric-math "(atlas + individual) > 0"` applied vertex-wise to
the two masks.  ROI masks are boolean vertex masks stored as 0/1 metric
values; a `Bool`-valued vertex mask is embedded with `true ↦ 1, false ↦ 0`. -/

/-- Numeric value of one vertex of a boolean ROI mask, as stored in the
metric file. -/
def maskValue (b : Bool) : ℕ := if b then 1 else 0

/-- Embedding of the vertex-wise merge formula `(atlas + individual) > 0`
(source lines 1369-1371), applied to the atlas-derived and subject-derived
masks. -/
def merge_medial_wall (atlasMask subjectMask : ℕ → Bool) (v : ℕ) : Bool :=
  decide (0 < maskValue (atlasMask v) + maskValue (subjectMask v))

/-! ## Path strings and `convert_freesurfer_mgz`

Source lines 565-591.  Paths are modelled as lists of characters so that the
semantics of Python `os.path.join` can be stated exactly. -/

/-- Does the path begin with a slash (Python `b.startswith('/')`,
the absolute-path test used by `os.path.join`)? -/
def startsWithSlash : List Char → Bool
  | [] => false
  | c :: _ => c == '/'

/-- Does the path end with a slash? -/
def endsWithSlash (s : List Char) : Bool := startsWithSlash s.reverse

/-- Python `os.path.join(a, b)` for POSIX paths: an absolute second
component replaces the first; otherwise the two are joined, inserting `'/'`
unless the first component is empty or already ends in `'/'`. -/
def os_path_join (a b : List Char) : List Char :=
  if startsWithSlash b then b
  else if a = [] ∨ endsWithSlash a = true then a ++ b
  else a ++ '/' :: b

/-- The path `os.path.join(freesurfer_folder, 'mri', image_name + '.mgz')`
constructed at source lines 578-579. -/
def freesurfer_mgz_path (freesurferFolder imageName : List Char) : List Char :=
  os_path_join (os_path_join freesurferFolder ['m', 'r', 'i'])
    (imageName ++ ['.', 'm', 'g', 'z'])

/-- The three possible outcomes of `convert_freesurfer_mgz` for one image. -/
inductive MgzOutcome where
  | fatalExit   -- sys.exit(1) at source line 583
  | warnOnly    -- logger.warning at source line 585, then plain return
  | converted   -- the mgz volume is resampled and its labels imported
  deriving DecidableEq, Repr

/-- Embedding of the control flow of `convert_freesurfer_mgz` (source lines
565-591).  `isFile` is `os.path.isfile(freesurfer_mgz)`.  The fatal branch
compares the full constructed path against the bare filename
`'wmparc.mgz'`. -/
def convert_freesurfer_mgz (imageName freesurferFolder : List Char)
    (isFile : Bool) : MgzOutcome :=
  if isFile then MgzOutcome.converted
  else
    if freesurfer_mgz_path freesurferFolder imageName ==
        ['w', 'm', 'p', 'a', 'r', 'c', '.', 'm', 'g', 'z'] then
      MgzOutcome.fatalExit
    else MgzOutcome.warnOnly

/-! ## MSM configuration pre-flight check (`Settings.check_msm_config`)

Source lines 301-314.  Each line of the MSM configuration file is cut at the
last `'='` (Python `arg[0:arg.rfind('=')]`; `rfind` yields `-1` when absent,
so `arg[0:-1]` then drops only the final character).  Every resulting option
must occur as a substring of the stderr text of `msm --printoptions` or be
the literal `'--dopt'`. -/

/-- Does `hay` begin with `needle`? -/
def leadsWith : List Char → List Char → Bool
  | [], _ => true
  | _ :: _, [] => false
  | a :: as, b :: bs => a == b && leadsWith as bs

/-- Python substring containment `needle in hay` for strings: some suffix of
`hay` begins with `needle` (the empty needle is contained in anything). -/
def hasSub (hay needle : List Char) : Bool :=
  match hay with
  | [] => needle == []
  | _ :: rest => leadsWith needle hay || hasSub rest needle

/-- Index of the last occurrence of `c` (Python `str.rfind`, with `none` for
Python's `-1`). -/
def rfindIdx (c : Char) : List Char → Option Nat
  | [] => none
  | a :: as =>
    match rfindIdx c as with
    | some i => some (i + 1)
    | none => if a == c then some 0 else none

/-- The per-line option stripping of `Settings.check_msm_config` (source
line 308): `arg[0:arg.rfind('=')]`. -/
def strip_msm_arg (line : List Char) : List Char :=
  match rfindIdx '=' line with
  | some i => line.take i
  | none => line.take (line.length - 1)

/-- Embedding of `Settings.check_msm_config` (source lines 301-314).
`configLines` are the lines read from the MSM configuration file and
`msmStderr` is the stderr text of `msm --printoptions`. -/
def check_msm_config (configLines : List (List Char))
    (msmStderr : List Char) : Bool :=
  configLines.all fun arg =>
    hasSub msmStderr (strip_msm_arg arg) ||
      strip_msm_arg arg == ['-', '-', 'd', 'o', 'p', 't']

/-! ## Settings construction (`Settings.__init__`)

Source lines 258-415.  Every `sys.exit(1)` inside the constructor becomes an
`InitError`; the boolean paired with the result records whether the
subject's output root was created (`os.makedirs` at source line 362), the
only filesystem mutation the constructor performs. -/

inductive InitError where
  | msmNotAvailable        -- ciftify.config.verify_msm_available failed
  | msmConfigMissing       -- the --MSM-config path does not exist (line 288)
  | msmConfigMismatch      -- check_msm_config returned False (line 294)
  | fsSubjectsDirMissing   -- no freesurfer subjects dir found (line 333)
  | fsFolderMissing        -- the subject's freesurfer folder is absent (line 431)
  | regKeyMissing          -- registration config lacks a required key (line 389)
  | malformedTransformPair -- exactly one user transform supplied (line 401)
  | unreadableInput        -- check_input_readable failed on a user transform
  | outputExists           -- root present without the resample flag (line 359)
  | incompleteOutput       -- resample flag set but marker absent (line 354)
  | mkdirFailed            -- os.makedirs failed (line 366)
  deriving DecidableEq, Repr

/-- Environment of the MSMSulc-mode branch of
`Settings.__set_registration_mode`: the collaborator results it consults. -/
structure MsmEnv where
  msmAvailable : Bool          -- ciftify.config.verify_msm_available succeeds
  userConfig : Option String   -- the --MSM-config argument
  userConfigExists : Bool      -- os.path.exists(user_config)
  defaultConfig : String       -- ciftify data dir hcp_config MSMSulcStrainFinalconf
  configLines : List (List Char)  -- lines of the chosen configuration file
  msmStderr : List Char        -- stderr text of msm --printoptions

/-- Embedding of `Settings.__set_registration_mode` (source lines 274-298):
returns the registration mode name together with the chosen MSM
configuration path (`none` outside MSMSulc mode). -/
def set_registration_mode (surfReg : String) (env : MsmEnv) :
    Except InitError (String × Option String) :=
  if surfReg == "MSMSulc" then
    if env.msmAvailable = false then Except.error InitError.msmNotAvailable
    else
      match env.userConfig with
      | none =>
        if check_msm_config env.configLines env.msmStderr then
          Except.ok ("MSMSulc", some env.defaultConfig)
        else Except.error InitError.msmConfigMismatch
      | some p =>
        if env.userConfigExists = false then
          Except.error InitError.msmConfigMissing
        else if check_msm_config env.configLines env.msmStderr then
          Except.ok ("MSMSulc", some p)
        else Except.error InitError.msmConfigMismatch
  else Except.ok (surfReg, none)

/-- Environment of `Settings.__define_registration_settings`: whether the
yaml registration entry has the three required folder keys, and which paths
`ciftify.utils.check_input_readable` accepts. -/
structure RegConfigEnv where
  hasSrcDir : Bool
  hasDestDir : Bool
  hasXfmsDir : Bool
  readable : String → Bool

/-- Embedding of `Settings.__define_registration_settings` (source lines
380-405), restricted to the data the claims are about: the pair of
user-supplied transforms.  The result is the pair
(User_AtlasTransform_NonLinear, User_AtlasTransform_Linear), with `none`
embedding the Python value `False` used when no transform is supplied. -/
def define_registration_settings (env : RegConfigEnv)
    (readNonlinXfm readLinXfm : Option String) :
    Except InitError (Option String × Option String) :=
  if (env.hasSrcDir && env.hasDestDir && env.hasXfmsDir) = false then
    Except.error InitError.regKeyMissing
  else
    match readNonlinXfm, readLinXfm with
    | some n, some l =>
      if env.readable n = false then Except.error InitError.unreadableInput
      else if env.readable l = false then Except.error InitError.unreadableInput
      else Except.ok (some n, some l)
    | some _, none => Except.error InitError.malformedTransformPair
    | none, some _ => Except.error InitError.malformedTransformPair
    | none, none => Except.ok (none, none)

/-- All the inputs `Settings.__init__` consults, in the embedding. -/
structure InitArgs where
  surfReg : String             -- the --surf-reg argument
  msm : MsmEnv
  regConfig : RegConfigEnv
  readNonlinXfm : Option String  -- the --read-non-lin-xfm argument
  readLinXfm : Option String     -- the --read-lin-premat argument
  fsSubjectsDirKnown : Bool    -- a freesurfer subjects dir was found
  fsFolderExists : Bool        -- the subject's freesurfer folder exists
  resample : Bool              -- the --resample-to-T1w32k flag
  pathExists : Bool            -- os.path.exists(subject.path)
  marker : Bool                -- has_ciftify_recon_all_run
  mkdirOk : Bool               -- os.makedirs(subject.path) succeeds

/-- The fields of the constructed `Settings` object the claims inspect. -/
structure SettingsModel where
  regName : String
  msmConfig : Option String
  resample : Bool
  userXfms : Option String × Option String
  skipMainWf : Bool
  deriving DecidableEq, Repr

/-- Embedding of `Settings.__init__` (source lines 259-272), in source
order: registration mode (line 261), freesurfer locations (lines 264-265),
registration settings (line 270), then the resume decision with its
`os.makedirs` side effect (line 272).  The boolean records whether the
output root was created - the constructor's only filesystem mutation. -/
def settings_construct (a : InitArgs) :
    Except InitError SettingsModel × Bool :=
  match set_registration_mode a.surfReg a.msm with
  | Except.error e => (Except.error e, false)
  | Except.ok (regName, msmConfig) =>
    if a.fsSubjectsDirKnown = false then
      (Except.error InitError.fsSubjectsDirMissing, false)
    else if a.fsFolderExists = false then
      (Except.error InitError.fsFolderMissing, false)
    else
      match define_registration_settings a.regConfig
          a.readNonlinXfm a.readLinXfm with
      | Except.error e => (Except.error e, false)
      | Except.ok xfms =>
        match has_been_run_before a.pathExists a.resample a.marker a.mkdirOk with
        | ResumeDecision.resampleOnly =>
          (Except.ok { regName := regName, msmConfig := msmConfig,
                       resample := a.resample, userXfms := xfms,
                       skipMainWf := true }, false)
        | ResumeDecision.fullPipeline =>
          (Except.ok { regName := regName, msmConfig := msmConfig,
                       resample := a.resample, userXfms := xfms,
                       skipMainWf := false }, true)
        | ResumeDecision.abortPrecondition =>
          (Except.error (if a.resample then InitError.incompleteOutput
                         else InitError.outputExists), false)
        | ResumeDecision.abortMkdirFailed =>
          (Except.error InitError.mkdirFailed, false)

/-! ## Stage traces

Each resampling/assembly stage of the pipeline is embedded as the list of
external-tool invocations it performs, in program order.  An `Action`
records one file-producing invocation (or a group of invocations writing
the same file) together with the mesh space it writes into. -/

inductive Action where
  | surfaceResample (surface hemi method currentSphere srcMesh destMesh : String)
  | addToSpec (mesh : String)
  | generateInflated (hemi mesh : String) (iterationsScale : ℚ)
  | metricResample (mapname hemi method currentSphere destMesh : String)
      (areaSurfs currentRoi : Bool)
  | metricMask (mapname hemi mesh : String)
  | labelResample (labelname hemi method currentSphere destMesh : String)
      (largest : Bool)
  | createDlabel (labelname mesh : String)
  | createDscalar (mapname mesh : String)
  | linkTemplate (mesh : String)
  | makeDirAct (mesh : String)
  | stage (name : String) (touchedMeshes : List String)
  deriving DecidableEq, Repr

/-- The mesh spaces whose folders (or spec files) an action writes into.
`linkTemplate` may additionally copy into the shared `zz_templates` cache,
which is not a mesh space (spec section 5). -/
def Action.meshTargets : Action → List String
  | Action.surfaceResample _ _ _ _ _ dest => [dest]
  | Action.addToSpec m => [m]
  | Action.generateInflated _ m _ => [m]
  | Action.metricResample _ _ _ _ dest _ _ => [dest]
  | Action.metricMask _ _ m => [m]
  | Action.labelResample _ _ _ _ dest _ => [dest]
  | Action.createDlabel _ m => [m]
  | Action.createDscalar _ m => [m]
  | Action.linkTemplate m => [m]
  | Action.makeDirAct m => [m]
  | Action.stage _ ms => ms

/-- Is the action a `wb_command -surface-resample` invocation? -/
def Action.isSurfaceResample : Action → Bool
  | Action.surfaceResample _ _ _ _ _ _ => true
  | _ => false

/-- Is the action a `wb_command -metric-resample` invocation? -/
def Action.isMetricResample : Action → Bool
  | Action.metricResample _ _ _ _ _ _ _ => true
  | _ => false

/-- The surface a `surfaceResample` action resamples (the empty string for
every other action). -/
def Action.surfaceName : Action → String
  | Action.surfaceResample s _ _ _ _ _ => s
  | _ => ""

/-- The hemisphere loop `[('L', ...), ('R', ...)]` used throughout the
source. -/
def hemispheres : List String := ["L", "R"]

/-- One dscalar entry of the configuration (spec section 3, `DScalarSpec`):
the map name and whether the medial-wall mask must be applied. -/
structure DscalarEntry where
  mapname : String
  maskMedialwall : Bool
  deriving DecidableEq, Repr

/-- Trace of `resample_surfs_and_add_to_spec` (source lines 1414-1436):
white, midthickness and pial are resampled barycentrically per hemisphere
and each result is added to the destination spec file. -/
def resample_surfs_and_add_to_spec (currentSphere srcMesh destMesh : String) :
    List Action :=
  ["white", "midthickness", "pial"].flatMap fun surface =>
    hemispheres.flatMap fun hemi =>
      [Action.surfaceResample surface hemi "BARYCENTRIC" currentSphere
         srcMesh destMesh,
       Action.addToSpec destMesh]

/-- Trace of `make_inflated_surfaces` (source lines 980-996): inflated and
very_inflated are regenerated from the midthickness with
`-surface-generate-inflated`, then both are added to the spec file. -/
def make_inflated_surfaces (mesh : String) (iterationsScale : ℚ) :
    List Action :=
  hemispheres.flatMap fun hemi =>
    [Action.generateInflated hemi mesh iterationsScale,
     Action.addToSpec mesh, Action.addToSpec mesh]

/-- Trace of `resample_and_mask_metric` (source lines 1438-1477): an
adaptive-barycentric-area metric resample using the source and destination
midthickness area surfaces; for medial-wall-sensitive maps the source ROI
is supplied and the destination ROI is re-applied as a mask afterward. -/
def resample_and_mask_metric (dscalar : DscalarEntry)
    (hemi currentSphere destMesh : String) : List Action :=
  if dscalar.maskMedialwall then
    [Action.metricResample dscalar.mapname hemi "ADAP_BARY_AREA"
       currentSphere destMesh true true,
     Action.metricMask dscalar.mapname hemi destMesh]
  else
    [Action.metricResample dscalar.mapname hemi "ADAP_BARY_AREA"
       currentSphere destMesh true false]

/-- Trace of `resample_label` (source lines 1479-1502): the label is
resampled barycentrically with the `-largest` tie-break, but only when the
source label file exists; otherwise nothing happens.  `labelPresent` is
`os.path.exists(label_in)` as a function of label name, hemisphere and
source mesh. -/
def resample_label (labelPresent : String → String → String → Bool)
    (labelName hemi currentSphere srcMesh destMesh : String) : List Action :=
  if labelPresent labelName hemi srcMesh then
    [Action.labelResample labelName hemi "BARYCENTRIC" currentSphere
       destMesh true]
  else []

/-- Trace of `resample_metric_and_label` (source lines 1513-1523): per
hemisphere, all dscalar maps are resampled, then all label maps. -/
def resample_metric_and_label (dscalars : List DscalarEntry)
    (labels : List String) (labelPresent : String → String → String → Bool)
    (currentSphere srcMesh destMesh : String) : List Action :=
  hemispheres.flatMap fun hemi =>
    (dscalars.flatMap fun d =>
      resample_and_mask_metric d hemi currentSphere destMesh) ++
    (labels.flatMap fun n =>
      resample_label labelPresent n hemi currentSphere srcMesh destMesh)

/-- Trace of `create_dlabel` (source lines 1036-1061): skipped with a
warning when the left label file of the mesh does not exist. -/
def create_dlabel (leftLabelPresent : String → String → Bool)
    (labelName mesh : String) : List Action :=
  if leftLabelPresent labelName mesh then
    [Action.createDlabel labelName mesh]
  else []

/-- Trace of `create_dscalar` (source lines 998-1034). -/
def create_dscalar (dscalar : DscalarEntry) (mesh : String) : List Action :=
  [Action.createDscalar dscalar.mapname mesh]

/-- Trace of `add_dense_maps_to_spec_file` (source lines 1063-1088): one
spec-file append per dscalar, and one per expected label whose dlabel file
exists. -/
def add_dense_maps_to_spec_file (dscalars : List DscalarEntry)
    (labels : List String) (dlabelPresent : String → String → Bool)
    (mesh : String) : List Action :=
  (dscalars.flatMap fun _d => [Action.addToSpec mesh]) ++
  (labels.flatMap fun n =>
    if dlabelPresent n mesh then [Action.addToSpec mesh] else [])

/-- Trace of `make_dense_map` (source lines 1104-1115). -/
def make_dense_map (dscalars : List DscalarEntry) (labels : List String)
    (leftLabelPresent dlabelPresent : String → String → Bool)
    (mesh : String) : List Action :=
  (labels.flatMap fun n => create_dlabel leftLabelPresent n mesh) ++
  (dscalars.flatMap fun d => create_dscalar d mesh) ++
  add_dense_maps_to_spec_file dscalars labels dlabelPresent mesh

/-- Trace of `deform_to_native` (source lines 1404-1412): surfaces first,
then regenerated inflations, then metric and label resampling, then dense
maps. -/
def deform_to_native (dscalars : List DscalarEntry) (labels : List String)
    (labelPresent : String → String → String → Bool)
    (leftLabelPresent dlabelPresent : String → String → Bool)
    (nativeMesh destMesh sphere : String) (scale : ℚ) : List Action :=
  resample_surfs_and_add_to_spec sphere nativeMesh destMesh ++
  make_inflated_surfaces destMesh scale ++
  resample_metric_and_label dscalars labels labelPresent sphere nativeMesh
    destMesh ++
  make_dense_map dscalars labels leftLabelPresent dlabelPresent destMesh

/-! ## Registration sphere names and file paths -/

/-- Embedding of `get_reg_sphere_names` (source lines 1210-1214). -/
def get_reg_sphere_names : String × String :=
  ("sphere.reg.reg_LR", "sphere.MSMSulc")

/-- The sphere-name selection of `resampling_to_t1w_32k` (source lines
209-213): the MSMSulc sphere in MSMSulc mode, the FS sphere otherwise. -/
def reg_sphere_choice (regName : String) : String :=
  if regName == "MSMSulc" then get_reg_sphere_names.2
  else get_reg_sphere_names.1

/-- Per-mesh-space naming data, from the mesh registry. -/
structure MeshSettings where
  folder : String
  meshname : String
  deriving DecidableEq, Repr

/-- Modelled from the spec: `ciftify.filenames.surf_file` (imported at
source line 91, its definition is not part of the given source).  Folder
paths and file names are deterministic functions of subject, surface name,
hemisphere and mesh space (spec sections 4.2 and 6). -/
def surf_file (subjectId surface hemi : String) (mesh : MeshSettings) :
    String :=
  mesh.folder ++ "/" ++ subjectId ++ "." ++ hemi ++ "." ++ surface ++ "." ++
    mesh.meshname ++ ".surf.gii"

/-- Modelled from the spec: the `AtlasSpaceNative` entry of the mesh
registry built by `ciftify.filenames.define_meshes` (source line 112; the
registry lives under `MNINonLinear/Native`, spec section 6). -/
def atlas_space_native_mesh (subjectPath : String) : MeshSettings :=
  { folder := subjectPath ++ "/MNINonLinear/Native", meshname := "native" }

/-- The destination mesh name `'Native{res}k_fs_LR'.format(res)` of
`resampling_to_t1w_32k` (source line 227). -/
def native_low_res_name (res : String) : String :=
  "Native" ++ res ++ "k_fs_LR"

/-! ## The pipeline sequencer -/

/-- The on-disk and configuration environment a run consults: the subject,
the requested resolutions, the dscalar configuration, the expected labels
and the file-existence oracles for optional inputs. -/
structure RunEnv where
  subjectId : String
  subjectPath : String
  lowRes : List String
  dscalars : List DscalarEntry
  labels : List String
  labelPresent : String → String → String → Bool
  leftLabelPresent : String → String → Bool
  dlabelPresent : String → String → Bool
  fileExists : String → Bool
  folderPresent : String → Bool
  roiTemplatePresent : Bool
  colinFlatPresent : Bool

/-- Trace of `copy_sphere_mesh_from_template` (source lines 1119-1135): per
hemisphere one template link plus one spec-file append. -/
def copy_sphere_mesh_from_template (mesh : String) : List Action :=
  hemispheres.flatMap fun _hemi =>
    [Action.linkTemplate mesh, Action.addToSpec mesh]

/-- Trace of `copy_atlas_roi_from_template` (source lines 1137-1149): per
hemisphere one template link, when the atlas provides the ROI. -/
def copy_atlas_roi_from_template (roiTemplatePresent : Bool) (mesh : String) :
    List Action :=
  hemispheres.flatMap fun _hemi =>
    if roiTemplatePresent then [Action.linkTemplate mesh] else []

/-- Trace of `copy_colin_flat_and_add_to_spec` (source lines 1090-1102). -/
def copy_colin_flat_and_add_to_spec (colinFlatPresent : Bool)
    (mesh : String) : List Action :=
  hemispheres.flatMap fun _hemi =>
    if colinFlatPresent then [Action.linkTemplate mesh, Action.addToSpec mesh]
    else []

/-- Trace of `add_anat_images_to_spec_files` (source lines 726-731): one
spec-file append per mesh. -/
def add_anat_images_to_spec_files (meshes : List String) : List Action :=
  meshes.flatMap fun m => [Action.addToSpec m]

/-- Trace of `populate_low_res_spec_file` (source lines 1396-1402). -/
def populate_low_res_spec_file (env : RunEnv)
    (sphere srcMesh destMesh : String) : List Action :=
  copy_atlas_roi_from_template env.roiTemplatePresent destMesh ++
  copy_sphere_mesh_from_template destMesh ++
  copy_colin_flat_and_add_to_spec env.colinFlatPresent destMesh ++
  deform_to_native env.dscalars env.labels env.labelPresent
    env.leftLabelPresent env.dlabelPresent srcMesh destMesh sphere (3 / 4)

/-- Trace of `resample_to_native` (source lines 1504-1511): template
sphere, barycentric surface resampling from the T1w native mesh,
regenerated inflations, then spec-file links to the pre-existing dense
maps. -/
def resample_to_native (env : RunEnv) (srcMesh destMesh sphere : String) :
    List Action :=
  copy_sphere_mesh_from_template destMesh ++
  resample_surfs_and_add_to_spec sphere srcMesh destMesh ++
  make_inflated_surfaces destMesh (3 / 4) ++
  add_dense_maps_to_spec_file env.dscalars env.labels env.dlabelPresent
    destMesh

/-- Trace and exit status of `resampling_to_t1w_32k` (source lines
201-238): the registration sphere is located by name; if its file is absent
the run exits fatally (exit code 1) before doing anything, otherwise each
requested low resolution gets its `Native{res}k_fs_LR` space built from the
T1w native mesh. -/
def resampling_to_t1w_32k (env : RunEnv) (regName : String) :
    List Action × Option Nat :=
  let regSphere := reg_sphere_choice regName
  let regSphereFile := surf_file env.subjectId regSphere "L"
    (atlas_space_native_mesh env.subjectPath)
  if env.fileExists regSphereFile = false then ([], some 1)
  else
    (env.lowRes.flatMap fun res =>
      let destName := native_low_res_name res
      (if env.folderPresent destName = false then [Action.makeDirAct destName]
       else []) ++
      add_anat_images_to_spec_files [destName] ++
      resample_to_native env "T1wNative" destName regSphere,
     none)

/-- Trace of `run_default_workflow` (source lines 131-199).  Stages whose
internals no claim inspects are kept abstract as `Action.stage` entries
carrying the mesh spaces they write into; the dense-map assembly and the
resampling stages use the detailed traces above.  `regSphere` is the name
returned by `create_reg_sphere`. -/
def run_default_workflow (env : RunEnv) (regSphere : String) : List Action :=
  [Action.stage "create_output_directories"
     (["T1wNative", "AtlasSpaceNative", "HighResMesh"] ++
       env.lowRes.map (fun res => res ++ "k_fs_LR")),
   Action.stage "convert_T1_and_freesurfer_inputs" [],
   Action.stage "prepare_T1_image" [],
   Action.stage "convert_inputs_to_MNI_space" []] ++
  add_anat_images_to_spec_files
    (["T1wNative", "AtlasSpaceNative", "HighResMesh"] ++
      env.lowRes.map (fun res => res ++ "k_fs_LR")) ++
  [Action.stage "create_cifti_subcortical_ROIs" [],
   Action.stage "convert_FS_surfaces_to_gifti"
     ["T1wNative", "AtlasSpaceNative"],
   Action.stage "process_native_meshes" ["T1wNative", "AtlasSpaceNative"]] ++
  copy_atlas_roi_from_template env.roiTemplatePresent "HighResMesh" ++
  copy_sphere_mesh_from_template "HighResMesh" ++
  [Action.stage "create_reg_sphere" ["AtlasSpaceNative"],
   Action.stage "merge_subject_medial_wall_with_atlas_template"
     ["AtlasSpaceNative"],
   Action.stage "dilate_and_mask_metric" ["AtlasSpaceNative"]] ++
  make_dense_map env.dscalars env.labels env.leftLabelPresent
    env.dlabelPresent "AtlasSpaceNative" ++
  add_dense_maps_to_spec_file env.dscalars env.labels env.dlabelPresent
    "T1wNative" ++
  copy_colin_flat_and_add_to_spec env.colinFlatPresent "HighResMesh" ++
  deform_to_native env.dscalars env.labels env.labelPresent
    env.leftLabelPresent env.dlabelPresent "AtlasSpaceNative" "HighResMesh"
    regSphere (5 / 2) ++
  (env.lowRes.flatMap fun res =>
    populate_low_res_spec_file env regSphere "AtlasSpaceNative"
      (res ++ "k_fs_LR"))

/-- Trace and exit status of `run_ciftify_recon_all` (source lines
100-129): the main workflow runs unless `skip_main_wf` is set, then the
extra T1w native-resolution resampling runs when the resample flag is
set. -/
def run_ciftify_recon_all (env : RunEnv) (s : SettingsModel) :
    List Action × Option Nat :=
  let mainTrace :=
    if s.skipMainWf then []
    else run_default_workflow env (reg_sphere_choice s.regName)
  if s.resample then
    let r := resampling_to_t1w_32k env s.regName
    (mainTrace ++ r.1, r.2)
  else (mainTrace, none)

/-- Trace and exit status of `main` (source lines 1528-1567): settings
construction first; a constructor failure terminates the process before
any pipeline stage executes. -/
def ciftify_main (a : InitArgs) (env : RunEnv) : List Action × Option Nat :=
  match (settings_construct a).1 with
  | Except.error _ => ([], some 1)
  | Except.ok s => run_ciftify_recon_all env s

end CiftifyReconAll

namespace CiftifyReconAll

/-! ## Theorems for claims C1, C2, C3 -/

/-- Claim C1: The resume decision satisfies: absent output root ⇒ full
pipeline (creating the root, fatal if creation fails); root present without
the resample flag ⇒ precondition abort regardless of completeness; root
present with the resample flag and the completeness marker ⇒ resample-only;
root present with the resample flag but no marker ⇒ precondition abort. -/
theorem resume_decision_policy (pathExists resample marker mkdirOk : Bool) :
    (pathExists = false →
      (mkdirOk = true →
        has_been_run_before pathExists resample marker mkdirOk =
          ResumeDecision.fullPipeline) ∧
      (mkdirOk = false →
        has_been_run_before pathExists resample marker mkdirOk =
          ResumeDecision.abortMkdirFailed)) ∧
    (pathExists = true → resample = false →
      has_been_run_before pathExists resample marker mkdirOk =
        ResumeDecision.abortPrecondition) ∧
    (pathExists = true → resample = true → marker = true →
      has_been_run_before pathExists resample marker mkdirOk =
        ResumeDecision.resampleOnly) ∧
    (pathExists = true → resample = true → marker = false →
      has_been_run_before pathExists resample marker mkdirOk =
        ResumeDecision.abortPrecondition) := by
  revert pathExists resample marker mkdirOk
  decide

/-- Witness for C1: the policy instantiated at concrete flag values. -/
theorem resume_decision_policy_witness :
    has_been_run_before false true true true = ResumeDecision.fullPipeline ∧
    has_been_run_before true true true true = ResumeDecision.resampleOnly :=
  ⟨((resume_decision_policy false true true true).1 rfl).1 rfl,
   ((resume_decision_policy true true true true).2.2.1 rfl rfl rfl)⟩

/-- Claim C2: the areal-distortion diagnostic equals
`log2(postRegistrationVertexArea / preRegistrationVertexArea)` per vertex,
and wherever the pre and post vertex areas agree the value is exactly 0. -/
theorem areal_distortion_is_log2_ratio (preVA regVA : ℕ → ℝ) (v : ℕ) :
    areal_distortion_map preVA regVA v = Real.logb 2 (regVA v / preVA v) ∧
    (preVA v = regVA v → areal_distortion_map preVA regVA v = 0) := by
  constructor
  · rfl
  · intro h
    unfold areal_distortion_map calc_areal_distortion
    rw [h]
    rcases eq_or_ne (regVA v) 0 with h0 | h0
    · rw [h0, div_zero, Real.log_zero, zero_div]
    · rw [div_self h0, Real.log_one, zero_div]

/-- Witness for C2: an area-preserving vertex (equal pre/post areas) has
distortion exactly 0. -/
theorem areal_distortion_witness :
    areal_distortion_map (fun _ => 2) (fun _ => 2) 0 = 0 :=
  (areal_distortion_is_log2_ratio (fun _ => 2) (fun _ => 2) 0).2 rfl

/-- Claim C3: the medial-wall merge is the boolean OR of the two masks; it
never unmarks a vertex the atlas mask alone marks, and merging a mask with
itself gives the mask back. -/
theorem merge_medial_wall_is_or (atlasMask subjectMask : ℕ → Bool) (v : ℕ) :
    merge_medial_wall atlasMask subjectMask v =
      (subjectMask v || atlasMask v) ∧
    (atlasMask v = true → merge_medial_wall atlasMask subjectMask v = true) ∧
    merge_medial_wall atlasMask atlasMask v = atlasMask v := by
  unfold merge_medial_wall maskValue
  cases atlasMask v <;> cases subjectMask v <;> simp

/-- Witness for C3: monotonicity at a concrete vertex where only the atlas
mask marks non-cortex. -/
theorem merge_medial_wall_witness :
    merge_medial_wall (fun _ => true) (fun _ => false) 0 = true :=
  (merge_medial_wall_is_or (fun _ => true) (fun _ => false) 0).2.1 rfl

/-! ## C7: optional label resampling -/

/-- Claim C7: when the source label file is absent, label resampling performs
no action (and raises no error); when it is present, the label is resampled
barycentrically with the largest-overlap tie-break into the destination
mesh. -/
theorem resample_label_optional
    (labelPresent : String → String → String → Bool)
    (labelName hemi currentSphere srcMesh destMesh : String) :
    (labelPresent labelName hemi srcMesh = false →
      resample_label labelPresent labelName hemi currentSphere srcMesh
        destMesh = []) ∧
    (labelPresent labelName hemi srcMesh = true →
      resample_label labelPresent labelName hemi currentSphere srcMesh
        destMesh =
        [Action.labelResample labelName hemi "BARYCENTRIC" currentSphere
          destMesh true]) := by
  unfold resample_label
  constructor <;> intro h <;> simp [h]

/-- Witness for C7: an absent label is skipped. -/
theorem resample_label_optional_witness :
    resample_label (fun _ _ _ => false) "aparc" "L" "sphere.reg.reg_LR"
      "AtlasSpaceNative" "32k_fs_LR" = [] :=
  (resample_label_optional (fun _ _ _ => false) "aparc" "L"
    "sphere.reg.reg_LR" "AtlasSpaceNative" "32k_fs_LR").1 rfl

/-! ## C10: the `wmparc.mgz` fatal branch is unreachable -/

/-- A path accepted by `startsWithSlash` begins with a slash character. -/
theorem startsWithSlash_shape {s : List Char}
    (h : startsWithSlash s = true) : ∃ t, s = '/' :: t := by
  cases s with
  | nil => simp [startsWithSlash] at h
  | cons c t =>
    simp only [startsWithSlash, beq_iff_eq] at h
    exact ⟨t, by rw [h]⟩

/-- A path ending in the segment `mri` is nonempty and does not end with a
slash. -/
theorem join_mri_shape (x : List Char) :
    x ++ ['m', 'r', 'i'] ≠ [] ∧
    endsWithSlash (x ++ ['m', 'r', 'i']) = false := by
  constructor
  · simp
  · simp [endsWithSlash, List.reverse_append, startsWithSlash]

/-- The path constructed by `convert_freesurfer_mgz` always contains a
slash: the middle `mri` component guarantees one. -/
theorem slash_mem_freesurfer_mgz_path (folder name : List Char) :
    '/' ∈ freesurfer_mgz_path folder name := by
  unfold freesurfer_mgz_path
  have hAshape : ∃ x, os_path_join folder ['m', 'r', 'i'] =
      x ++ ['m', 'r', 'i'] := by
    unfold os_path_join
    have h1 : startsWithSlash ['m', 'r', 'i'] = false := by decide
    rw [h1]
    simp only [Bool.false_eq_true, if_false]
    split
    · exact ⟨folder, rfl⟩
    · exact ⟨folder ++ ['/'], by rw [List.append_cons]⟩
  obtain ⟨x, hx⟩ := hAshape
  rw [hx]
  obtain ⟨hne, hend⟩ := join_mri_shape x
  unfold os_path_join
  by_cases hbs : startsWithSlash (name ++ ['.', 'm', 'g', 'z']) = true
  · rw [hbs, if_pos rfl]
    obtain ⟨t, ht⟩ := startsWithSlash_shape hbs
    rw [ht]
    exact List.mem_cons_self _ _
  · rw [Bool.not_eq_true] at hbs
    rw [hbs]
    simp only [Bool.false_eq_true, if_false]
    rw [if_neg (by simp [hne, hend])]
    exact List.mem_append_right _ (List.mem_cons_self _ _)

/-- The constructed path can never equal the bare filename `wmparc.mgz`. -/
theorem freesurfer_mgz_path_ne_wmparc (folder name : List Char) :
    freesurfer_mgz_path folder name ≠
      ['w', 'm', 'p', 'a', 'r', 'c', '.', 'm', 'g', 'z'] := by
  intro h
  have hmem := slash_mem_freesurfer_mgz_path folder name
  rw [h] at hmem
  exact absurd hmem (by decide)

/-- Claim C10: the fatal-exit branch of `convert_freesurfer_mgz` is
unreachable for every input - the full constructed path is compared against
the bare filename `wmparc.mgz`, which it can never equal - so a missing mgz
image (wmparc included) only logs a warning and the function returns. -/
theorem convert_freesurfer_mgz_never_fatal
    (imageName freesurferFolder : List Char) (isFile : Bool) :
    convert_freesurfer_mgz imageName freesurferFolder isFile ≠
      MgzOutcome.fatalExit ∧
    (isFile = false →
      convert_freesurfer_mgz imageName freesurferFolder isFile =
        MgzOutcome.warnOnly) := by
  have hbeq : (freesurfer_mgz_path freesurferFolder imageName ==
      ['w', 'm', 'p', 'a', 'r', 'c', '.', 'm', 'g', 'z']) = false := by
    simpa using freesurfer_mgz_path_ne_wmparc freesurferFolder imageName
  unfold convert_freesurfer_mgz
  cases isFile
  · simp [hbeq]
  · simp

/-- Witness for C10: a missing `wmparc.mgz` under an ordinary freesurfer
folder is only a warning. -/
theorem convert_freesurfer_mgz_never_fatal_witness :
    convert_freesurfer_mgz ['w', 'm', 'p', 'a', 'r', 'c']
      ['/', 's', 'u', 'b'] false = MgzOutcome.warnOnly :=
  (convert_freesurfer_mgz_never_fatal ['w', 'm', 'p', 'a', 'r', 'c']
    ['/', 's', 'u', 'b'] false).2 rfl

/-! ## C4: the user-transform pair must be supplied together or not at
all -/

/-- A malformed pair (exactly one transform supplied) always makes
`__define_registration_settings` fail. -/
theorem define_reg_settings_err_of_mismatch (env : RegConfigEnv)
    {n l : Option String} (h : n.isSome ≠ l.isSome) :
    ∃ e, define_registration_settings env n l = Except.error e := by
  unfold define_registration_settings
  split
  · exact ⟨_, rfl⟩
  · rcases n with _ | n <;> rcases l with _ | l
    · simp at h
    · exact ⟨_, rfl⟩
    · exact ⟨_, rfl⟩
    · simp at h

/-- Claim C4: if exactly one of the two user transforms is supplied, settings
construction fails before the output root is created or any filesystem
mutation occurs; if both are supplied (and readable), both are recorded; if
neither is supplied, both entries get the absent value and the check raises
no error. -/
theorem user_transform_pair_rules (a : InitArgs) :
    (a.readNonlinXfm.isSome ≠ a.readLinXfm.isSome →
      (∀ s, (settings_construct a).1 ≠ Except.ok s) ∧
      (settings_construct a).2 = false) ∧
    (∀ n l, a.readNonlinXfm = some n → a.readLinXfm = some l →
      a.regConfig.readable n = true → a.regConfig.readable l = true →
      (a.regConfig.hasSrcDir && a.regConfig.hasDestDir &&
        a.regConfig.hasXfmsDir) = true →
      define_registration_settings a.regConfig a.readNonlinXfm
        a.readLinXfm = Except.ok (some n, some l)) ∧
    (a.readNonlinXfm = none → a.readLinXfm = none →
      (a.regConfig.hasSrcDir && a.regConfig.hasDestDir &&
        a.regConfig.hasXfmsDir) = true →
      define_registration_settings a.regConfig a.readNonlinXfm
        a.readLinXfm = Except.ok (none, none)) := by
  refine ⟨?_, ?_, ?_⟩
  · intro hne
    obtain ⟨e, he⟩ := define_reg_settings_err_of_mismatch a.regConfig hne
    unfold settings_construct
    rcases hsr : set_registration_mode a.surfReg a.msm with e' | pr
    · simp
    · obtain ⟨regName, msmConfig⟩ := pr
      by_cases h1 : a.fsSubjectsDirKnown = false
      · simp [h1]
      · by_cases h2 : a.fsFolderExists = false
        · simp [h1, h2]
        · simp [h1, h2, he]
  · intro n l hn hl hrn hrl hkeys
    rw [hn, hl]
    unfold define_registration_settings
    rw [hkeys]
    simp [hrn, hrl]
  · intro hn hl hkeys
    rw [hn, hl]
    unfold define_registration_settings
    rw [hkeys]
    simp

/-- Witness for C4: a concrete run with only the nonlinear transform
supplied mutates nothing, and a concrete run with both supplied records
both. -/
theorem user_transform_pair_rules_witness :
    (settings_construct
      { surfReg := "FS",
        msm := { msmAvailable := true, userConfig := none,
                 userConfigExists := false, defaultConfig := "conf",
                 configLines := [], msmStderr := [] },
        regConfig := { hasSrcDir := true, hasDestDir := true,
                       hasXfmsDir := true, readable := fun _ => true },
        readNonlinXfm := some "warp.nii.gz", readLinXfm := none,
        fsSubjectsDirKnown := true, fsFolderExists := true,
        resample := false, pathExists := false, marker := false,
        mkdirOk := true }).2 = false ∧
    define_registration_settings
      { hasSrcDir := true, hasDestDir := true, hasXfmsDir := true,
        readable := fun _ => true }
      (some "warp.nii.gz") (some "premat.mat") =
      Except.ok (some "warp.nii.gz", some "premat.mat") :=
  ⟨((user_transform_pair_rules
      { surfReg := "FS",
        msm := { msmAvailable := true, userConfig := none,
                 userConfigExists := false, defaultConfig := "conf",
                 configLines := [], msmStderr := [] },
        regConfig := { hasSrcDir := true, hasDestDir := true,
                       hasXfmsDir := true, readable := fun _ => true },
        readNonlinXfm := some "warp.nii.gz", readLinXfm := none,
        fsSubjectsDirKnown := true, fsFolderExists := true,
        resample := false, pathExists := false, marker := false,
        mkdirOk := true }).1 (by simp)).2,
   (user_transform_pair_rules
      { surfReg := "FS",
        msm := { msmAvailable := true, userConfig := none,
                 userConfigExists := false, defaultConfig := "conf",
                 configLines := [], msmStderr := [] },
        regConfig := { hasSrcDir := true, hasDestDir := true,
                       hasXfmsDir := true, readable := fun _ => true },
        readNonlinXfm := some "warp.nii.gz", readLinXfm := some "premat.mat",
        fsSubjectsDirKnown := true, fsFolderExists := true,
        resample := false, pathExists := false, marker := false,
        mkdirOk := true }).2.1 "warp.nii.gz" "premat.mat" rfl rfl rfl rfl
      rfl⟩

/-! ## C9: resample-only sphere lookup -/

/-- Claim C9: in resample-only mode the registration sphere is located by
name - the MSMSulc sphere in MSMSulc mode, the FS sphere otherwise - and
when that sphere file of the native atlas-space mesh does not exist the run
exits fatally (code 1) before performing any resampling action. -/
theorem resample_only_sphere_lookup (env : RunEnv) (regName : String) :
    (regName = "MSMSulc" →
      reg_sphere_choice regName = "sphere.MSMSulc") ∧
    (regName ≠ "MSMSulc" →
      reg_sphere_choice regName = "sphere.reg.reg_LR") ∧
    (env.fileExists (surf_file env.subjectId (reg_sphere_choice regName) "L"
        (atlas_space_native_mesh env.subjectPath)) = false →
      resampling_to_t1w_32k env regName = ([], some 1)) := by
  refine ⟨?_, ?_, ?_⟩
  · intro h
    simp [reg_sphere_choice, get_reg_sphere_names, h]
  · intro h
    simp [reg_sphere_choice, get_reg_sphere_names, h]
  · intro h
    unfold resampling_to_t1w_32k
    simp [h]

/-- Witness for C9: a missing MSMSulc sphere aborts with no actions. -/
theorem resample_only_sphere_lookup_witness :
    resampling_to_t1w_32k
      { subjectId := "sub-01", subjectPath := "/work/sub-01",
        lowRes := ["32"], dscalars := [], labels := [],
        labelPresent := fun _ _ _ => false,
        leftLabelPresent := fun _ _ => false,
        dlabelPresent := fun _ _ => false,
        fileExists := fun _ => false, folderPresent := fun _ => false,
        roiTemplatePresent := false, colinFlatPresent := false }
      "MSMSulc" = ([], some 1) :=
  (resample_only_sphere_lookup
    { subjectId := "sub-01", subjectPath := "/work/sub-01",
      lowRes := ["32"], dscalars := [], labels := [],
      labelPresent := fun _ _ _ => false,
      leftLabelPresent := fun _ _ => false,
      dlabelPresent := fun _ _ => false,
      fileExists := fun _ => false, folderPresent := fun _ => false,
      roiTemplatePresent := false, colinFlatPresent := false }
    "MSMSulc").2.2 rfl

/-! ## C5: MSM configuration compatibility pre-flight -/

/-- `check_msm_config` fails exactly when some option of the configuration
file is neither `--dopt` nor found in the tool's reported options. -/
theorem check_msm_config_false_iff (lines : List (List Char))
    (err : List Char) :
    check_msm_config lines err = false ↔
      ∃ l ∈ lines, strip_msm_arg l ≠ ['-', '-', 'd', 'o', 'p', 't'] ∧
        hasSub err (strip_msm_arg l) = false := by
  simp only [check_msm_config, List.all_eq_false, Bool.not_eq_true,
    Bool.or_eq_false_iff, beq_eq_false_iff_ne]
  constructor
  · rintro ⟨l, hl, h1, h2⟩
    exact ⟨l, hl, h2, h1⟩
  · rintro ⟨l, hl, h1, h2⟩
    exact ⟨l, hl, h2, h1⟩

/-- Claim C5: in MSMSulc mode, an option of the MSM configuration file that
is neither `--dopt` nor reported by the installed msm tool aborts the run
during settings construction, before any pipeline action (in particular any
sphere registration) executes; if every option is accepted, construction
proceeds past the check. -/
theorem msm_preflight (a : InitArgs) (env : RunEnv)
    (hmode : a.surfReg = "MSMSulc") (havail : a.msm.msmAvailable = true)
    (hcfg : a.msm.userConfig = none ∨ a.msm.userConfigExists = true) :
    ((∃ l ∈ a.msm.configLines,
        strip_msm_arg l ≠ ['-', '-', 'd', 'o', 'p', 't'] ∧
        hasSub a.msm.msmStderr (strip_msm_arg l) = false) →
      (settings_construct a).1 = Except.error InitError.msmConfigMismatch ∧
      ciftify_main a env = ([], some 1)) ∧
    ((∀ l ∈ a.msm.configLines,
        hasSub a.msm.msmStderr (strip_msm_arg l) = true ∨
        strip_msm_arg l = ['-', '-', 'd', 'o', 'p', 't']) →
      ∃ cfg, set_registration_mode a.surfReg a.msm =
        Except.ok ("MSMSulc", some cfg)) := by
  constructor
  · intro hbad
    have hchk : check_msm_config a.msm.configLines a.msm.msmStderr = false :=
      (check_msm_config_false_iff a.msm.configLines a.msm.msmStderr).2 hbad
    have hsr : set_registration_mode a.surfReg a.msm =
        Except.error InitError.msmConfigMismatch := by
      unfold set_registration_mode
      rw [hmode]
      rcases hu : a.msm.userConfig with _ | p
      · simp [havail, hchk]
      · have hc : a.msm.userConfigExists = true := by
          rcases hcfg with hc | hc
          · rw [hu] at hc; cases hc
          · exact hc
        simp [havail, hchk, hc]
    have hfst : (settings_construct a).1 =
        Except.error InitError.msmConfigMismatch := by
      unfold settings_construct
      rw [hsr]
    refine ⟨hfst, ?_⟩
    unfold ciftify_main
    rw [hfst]
  · intro hgood
    have hchk : check_msm_config a.msm.configLines a.msm.msmStderr = true := by
      rw [check_msm_config, List.all_eq_true]
      intro l hl
      rcases hgood l hl with h | h
      · simp [h]
      · simp [h]
    rcases hu : a.msm.userConfig with _ | p
    · exact ⟨a.msm.defaultConfig, by
        unfold set_registration_mode
        rw [hmode]
        simp [havail, hchk, hu]⟩
    · have hc : a.msm.userConfigExists = true := by
        rcases hcfg with hc | hc
        · rw [hu] at hc; cases hc
        · exact hc
      exact ⟨p, by
        unfold set_registration_mode
        rw [hmode]
        simp [havail, hchk, hu, hc]⟩

/-- Witness for C5: a configuration file naming an option the installed
tool does not report makes the whole run abort with no action executed. -/
theorem msm_preflight_witness :
    ciftify_main
      { surfReg := "MSMSulc",
        msm := { msmAvailable := true, userConfig := none,
                 userConfigExists := false, defaultConfig := "conf",
                 configLines := [['-', '-', 'x', '=', '4']],
                 msmStderr := ['o', 'k'] },
        regConfig := { hasSrcDir := true, hasDestDir := true,
                       hasXfmsDir := true, readable := fun _ => true },
        readNonlinXfm := none, readLinXfm := none,
        fsSubjectsDirKnown := true, fsFolderExists := true,
        resample := false, pathExists := false, marker := false,
        mkdirOk := true }
      { subjectId := "sub-01", subjectPath := "/work/sub-01",
        lowRes := ["32"], dscalars := [], labels := [],
        labelPresent := fun _ _ _ => false,
        leftLabelPresent := fun _ _ => false,
        dlabelPresent := fun _ _ => false,
        fileExists := fun _ => false, folderPresent := fun _ => false,
        roiTemplatePresent := false, colinFlatPresent := false } =
      ([], some 1) :=
  ((msm_preflight
      { surfReg := "MSMSulc",
        msm := { msmAvailable := true, userConfig := none,
                 userConfigExists := false, defaultConfig := "conf",
                 configLines := [['-', '-', 'x', '=', '4']],
                 msmStderr := ['o', 'k'] },
        regConfig := { hasSrcDir := true, hasDestDir := true,
                       hasXfmsDir := true, readable := fun _ => true },
        readNonlinXfm := none, readLinXfm := none,
        fsSubjectsDirKnown := true, fsFolderExists := true,
        resample := false, pathExists := false, marker := false,
        mkdirOk := true }
      { subjectId := "sub-01", subjectPath := "/work/sub-01",
        lowRes := ["32"], dscalars := [], labels := [],
        labelPresent := fun _ _ _ => false,
        leftLabelPresent := fun _ _ => false,
        dlabelPresent := fun _ _ => false,
        fileExists := fun _ => false, folderPresent := fun _ => false,
        roiTemplatePresent := false, colinFlatPresent := false }
      rfl rfl (Or.inl rfl)).1
    ⟨['-', '-', 'x', '=', '4'], by decide, by decide, by decide⟩).2

/-! ## C6: trace shape of `deform_to_native` -/

/-- Shape of the members of the surface-resampling trace. -/
theorem mem_resample_surfs (x : Action) (cs src dest : String)
    (hx : x ∈ resample_surfs_and_add_to_spec cs src dest) :
    (∃ s ∈ (["white", "midthickness", "pial"] : List String),
      ∃ h ∈ hemispheres,
        x = Action.surfaceResample s h "BARYCENTRIC" cs src dest) ∨
    x = Action.addToSpec dest := by
  unfold resample_surfs_and_add_to_spec at hx
  obtain ⟨s, hs, hx⟩ := List.mem_flatMap.1 hx
  obtain ⟨h, hh, hx⟩ := List.mem_flatMap.1 hx
  simp only [List.mem_cons, List.not_mem_nil, or_false] at hx
  rcases hx with rfl | rfl
  · exact Or.inl ⟨s, hs, h, hh, rfl⟩
  · exact Or.inr rfl

/-- Shape of the members of the inflation trace. -/
theorem mem_make_inflated (x : Action) (mesh : String) (scale : ℚ)
    (hx : x ∈ make_inflated_surfaces mesh scale) :
    (∃ h ∈ hemispheres, x = Action.generateInflated h mesh scale) ∨
    x = Action.addToSpec mesh := by
  unfold make_inflated_surfaces at hx
  obtain ⟨h, hh, hx⟩ := List.mem_flatMap.1 hx
  simp only [List.mem_cons, List.not_mem_nil, or_false] at hx
  rcases hx with rfl | rfl | rfl
  · exact Or.inl ⟨h, hh, rfl⟩
  · exact Or.inr rfl
  · exact Or.inr rfl

/-- The surface part of a resampling pass contains no metric resample. -/
theorem not_metric_of_mem_surf_part (x : Action) (cs src dest : String)
    (scale : ℚ)
    (hx : x ∈ resample_surfs_and_add_to_spec cs src dest ++
      make_inflated_surfaces dest scale) :
    x.isMetricResample = false := by
  rcases List.mem_append.1 hx with hx | hx
  · rcases mem_resample_surfs x cs src dest hx with ⟨s, _, h, _, rfl⟩ | rfl <;>
      rfl
  · rcases mem_make_inflated x dest scale hx with ⟨h, _, rfl⟩ | rfl <;> rfl

/-- The metric/label/dense-map part of a resampling pass contains no
surface resample. -/
theorem not_surf_of_mem_metric_part (x : Action)
    (dscalars : List DscalarEntry) (labels : List String)
    (labelPresent : String → String → String → Bool)
    (leftLabelPresent dlabelPresent : String → String → Bool)
    (cs src dest : String)
    (hx : x ∈ resample_metric_and_label dscalars labels labelPresent cs src
        dest ++
      make_dense_map dscalars labels leftLabelPresent dlabelPresent dest) :
    x.isSurfaceResample = false := by
  rcases List.mem_append.1 hx with hx | hx
  · unfold resample_metric_and_label at hx
    obtain ⟨h, _hh, hx⟩ := List.mem_flatMap.1 hx
    rcases List.mem_append.1 hx with hx | hx
    · obtain ⟨d, _hd, hx⟩ := List.mem_flatMap.1 hx
      unfold resample_and_mask_metric at hx
      split at hx <;>
        simp only [List.mem_cons, List.not_mem_nil, or_false] at hx
      · rcases hx with rfl | rfl <;> rfl
      · subst hx; rfl
    · obtain ⟨n, _hn, hx⟩ := List.mem_flatMap.1 hx
      unfold resample_label at hx
      split at hx
      · simp only [List.mem_cons, List.not_mem_nil, or_false] at hx
        subst hx; rfl
      · cases hx
  · unfold make_dense_map at hx
    rcases List.mem_append.1 hx with hx | hx
    · rcases List.mem_append.1 hx with hx | hx
      · obtain ⟨n, _hn, hx⟩ := List.mem_flatMap.1 hx
        unfold create_dlabel at hx
        split at hx
        · simp only [List.mem_cons, List.not_mem_nil, or_false] at hx
          subst hx; rfl
        · cases hx
      · obtain ⟨d, _hd, hx⟩ := List.mem_flatMap.1 hx
        unfold create_dscalar at hx
        simp only [List.mem_cons, List.not_mem_nil, or_false] at hx
        subst hx; rfl
    · unfold add_dense_maps_to_spec_file at hx
      rcases List.mem_append.1 hx with hx | hx
      · obtain ⟨d, _hd, hx⟩ := List.mem_flatMap.1 hx
        simp only [List.mem_cons, List.not_mem_nil, or_false] at hx
        subst hx; rfl
      · obtain ⟨n, _hn, hx⟩ := List.mem_flatMap.1 hx
        split at hx
        · simp only [List.mem_cons, List.not_mem_nil, or_false] at hx
          subst hx; rfl
        · cases hx

/-- In a concatenation whose first half has no metric resample and whose
second half has no surface resample, every surface resample comes strictly
before every metric resample. -/
theorem append_surf_before_metric {A B : List Action}
    (hA : ∀ x ∈ A, x.isMetricResample = false)
    (hB : ∀ x ∈ B, x.isSurfaceResample = false)
    (i j : ℕ) (hi : i < (A ++ B).length) (hj : j < (A ++ B).length)
    (hsi : ((A ++ B)[i]).isSurfaceResample = true)
    (hmj : ((A ++ B)[j]).isMetricResample = true) : i < j := by
  have hiA : i < A.length := by
    by_contra hge
    push_neg at hge
    have hlt : i - A.length < B.length := by
      rw [List.length_append] at hi; omega
    rw [List.getElem_append_right hge] at hsi
    exact absurd hsi (by simp [hB _ (List.getElem_mem hlt)])
  have hjA : A.length ≤ j := by
    by_contra hlt
    push_neg at hlt
    rw [List.getElem_append_left hlt] at hmj
    exact absurd hmj (by simp [hA _ (List.getElem_mem hlt)])
  omega

/-- Claim C6: within one `deform_to_native` pass, every surface resample
(midthickness included) comes strictly before every scalar-map resample,
the only surfaces ever resampled are white, midthickness and pial, and the
inflated surfaces are regenerated (never resampled). -/
theorem deform_to_native_ordering
    (dscalars : List DscalarEntry) (labels : List String)
    (labelPresent : String → String → String → Bool)
    (leftLabelPresent dlabelPresent : String → String → Bool)
    (nativeMesh destMesh sphere : String) (scale : ℚ) (T : List Action)
    (hT : T = deform_to_native dscalars labels labelPresent leftLabelPresent
      dlabelPresent nativeMesh destMesh sphere scale) :
    (∀ (i j : ℕ) (hi : i < T.length) (hj : j < T.length),
      (T[i]).isSurfaceResample = true → (T[j]).isMetricResample = true →
      i < j) ∧
    (∀ x ∈ T, x.isSurfaceResample = true →
      x.surfaceName ∈ (["white", "midthickness", "pial"] : List String)) ∧
    Action.surfaceResample "midthickness" "L" "BARYCENTRIC" sphere
      nativeMesh destMesh ∈ T ∧
    Action.generateInflated "L" destMesh scale ∈ T := by
  have hT2 : T =
      (resample_surfs_and_add_to_spec sphere nativeMesh destMesh ++
        make_inflated_surfaces destMesh scale) ++
      (resample_metric_and_label dscalars labels labelPresent sphere
        nativeMesh destMesh ++
        make_dense_map dscalars labels leftLabelPresent dlabelPresent
          destMesh) := by
    rw [hT]
    unfold deform_to_native
    rw [List.append_assoc]
  rw [hT2]
  refine ⟨append_surf_before_metric
      (fun x hx => not_metric_of_mem_surf_part x sphere nativeMesh destMesh
        scale hx)
      (fun x hx => not_surf_of_mem_metric_part x dscalars labels
        labelPresent leftLabelPresent dlabelPresent sphere nativeMesh
        destMesh hx), ?_, ?_, ?_⟩
  · intro x hx hsurf
    rcases List.mem_append.1 hx with hx | hx
    · rcases List.mem_append.1 hx with hx | hx
      · rcases mem_resample_surfs x sphere nativeMesh destMesh hx with
          ⟨s, hs, h, _, rfl⟩ | rfl
        · simpa [Action.surfaceName] using hs
        · simp [Action.isSurfaceResample] at hsurf
      · rcases mem_make_inflated x destMesh scale hx with ⟨h, _, rfl⟩ | rfl <;>
          simp [Action.isSurfaceResample] at hsurf
    · rw [not_surf_of_mem_metric_part x dscalars labels labelPresent
        leftLabelPresent dlabelPresent sphere nativeMesh destMesh hx]
        at hsurf
      cases hsurf
  · apply List.mem_append_left
    apply List.mem_append_left
    unfold resample_surfs_and_add_to_spec
    refine List.mem_flatMap.2 ⟨"midthickness", by simp, ?_⟩
    refine List.mem_flatMap.2 ⟨"L", by simp [hemispheres], ?_⟩
    simp
  · apply List.mem_append_left
    apply List.mem_append_right
    unfold make_inflated_surfaces
    refine List.mem_flatMap.2 ⟨"L", by simp [hemispheres], ?_⟩
    simp

/-- Witness for C6: the destination midthickness is resampled inside a
concrete pass. -/
theorem deform_to_native_ordering_witness :
    Action.surfaceResample "midthickness" "L" "BARYCENTRIC"
      "sphere.reg.reg_LR" "AtlasSpaceNative" "164k_fs_LR" ∈
      deform_to_native [] [] (fun _ _ _ => false) (fun _ _ => false)
        (fun _ _ => false) "AtlasSpaceNative" "164k_fs_LR"
        "sphere.reg.reg_LR" (5 / 2) :=
  (deform_to_native_ordering [] [] (fun _ _ _ => false) (fun _ _ => false)
    (fun _ _ => false) "AtlasSpaceNative" "164k_fs_LR" "sphere.reg.reg_LR"
    (5 / 2) _ rfl).2.2.1

/-! ## C8: resample-only mode writes only the Native low-res spaces -/

/-- Every action of `copy_sphere_mesh_from_template` writes the given mesh
only. -/
theorem targets_of_copy_sphere (x : Action) (m : String)
    (hx : x ∈ copy_sphere_mesh_from_template m) :
    ∀ t ∈ x.meshTargets, t = m := by
  unfold copy_sphere_mesh_from_template at hx
  obtain ⟨h, _hh, hx⟩ := List.mem_flatMap.1 hx
  simp only [List.mem_cons, List.not_mem_nil, or_false] at hx
  rcases hx with rfl | rfl <;> intro t ht <;>
    simp only [Action.meshTargets, List.mem_cons, List.not_mem_nil,
      or_false] at ht <;> exact ht

/-- Every action of `resample_surfs_and_add_to_spec` writes the
destination mesh only. -/
theorem targets_of_resample_surfs (x : Action) (cs src dest : String)
    (hx : x ∈ resample_surfs_and_add_to_spec cs src dest) :
    ∀ t ∈ x.meshTargets, t = dest := by
  rcases mem_resample_surfs x cs src dest hx with ⟨s, _, h, _, rfl⟩ | rfl <;>
    intro t ht <;>
    simp only [Action.meshTargets, List.mem_cons, List.not_mem_nil,
      or_false] at ht <;> exact ht

/-- Every action of `make_inflated_surfaces` writes the given mesh only. -/
theorem targets_of_make_inflated (x : Action) (mesh : String) (scale : ℚ)
    (hx : x ∈ make_inflated_surfaces mesh scale) :
    ∀ t ∈ x.meshTargets, t = mesh := by
  rcases mem_make_inflated x mesh scale hx with ⟨h, _, rfl⟩ | rfl <;>
    intro t ht <;>
    simp only [Action.meshTargets, List.mem_cons, List.not_mem_nil,
      or_false] at ht <;> exact ht

/-- Every action of `add_dense_maps_to_spec_file` writes the given mesh
only. -/
theorem targets_of_add_dense_maps (x : Action)
    (dscalars : List DscalarEntry) (labels : List String)
    (dlabelPresent : String → String → Bool) (mesh : String)
    (hx : x ∈ add_dense_maps_to_spec_file dscalars labels dlabelPresent
      mesh) :
    ∀ t ∈ x.meshTargets, t = mesh := by
  unfold add_dense_maps_to_spec_file at hx
  rcases List.mem_append.1 hx with hx | hx
  · obtain ⟨d, _hd, hx⟩ := List.mem_flatMap.1 hx
    simp only [List.mem_cons, List.not_mem_nil, or_false] at hx
    subst hx
    intro t ht
    simp only [Action.meshTargets, List.mem_cons, List.not_mem_nil,
      or_false] at ht
    exact ht
  · obtain ⟨n, _hn, hx⟩ := List.mem_flatMap.1 hx
    split at hx
    · simp only [List.mem_cons, List.not_mem_nil, or_false] at hx
      subst hx
      intro t ht
      simp only [Action.meshTargets, List.mem_cons, List.not_mem_nil,
        or_false] at ht
      exact ht
    · cases hx

/-- Every action of `resample_to_native` writes the destination mesh
only. -/
theorem targets_of_resample_to_native (x : Action) (env : RunEnv)
    (src dest sphere : String)
    (hx : x ∈ resample_to_native env src dest sphere) :
    ∀ t ∈ x.meshTargets, t = dest := by
  unfold resample_to_native at hx
  rcases List.mem_append.1 hx with hx | hx
  · rcases List.mem_append.1 hx with hx | hx
    · rcases List.mem_append.1 hx with hx | hx
      · exact targets_of_copy_sphere x dest hx
      · exact targets_of_resample_surfs x sphere src dest hx
    · exact targets_of_make_inflated x dest (3 / 4) hx
  · exact targets_of_add_dense_maps x env.dscalars env.labels
      env.dlabelPresent dest hx

/-- Every mesh-space write performed by `resampling_to_t1w_32k` goes to a
`Native{res}k_fs_LR` destination space for a requested resolution. -/
theorem resampling_to_t1w_32k_targets (env : RunEnv) (regName : String) :
    ∀ x ∈ (resampling_to_t1w_32k env regName).1, ∀ t ∈ x.meshTargets,
      ∃ res ∈ env.lowRes, t = native_low_res_name res := by
  intro x hx
  by_cases hf : env.fileExists (surf_file env.subjectId
      (reg_sphere_choice regName) "L"
      (atlas_space_native_mesh env.subjectPath)) = false
  · have hempty : resampling_to_t1w_32k env regName = ([], some 1) := by
      unfold resampling_to_t1w_32k
      simp [hf]
    rw [hempty] at hx
    cases hx
  · rw [Bool.not_eq_false] at hf
    have hfull : (resampling_to_t1w_32k env regName).1 =
        env.lowRes.flatMap fun res =>
          (if env.folderPresent (native_low_res_name res) = false then
            [Action.makeDirAct (native_low_res_name res)]
          else []) ++
          add_anat_images_to_spec_files [native_low_res_name res] ++
          resample_to_native env "T1wNative" (native_low_res_name res)
            (reg_sphere_choice regName) := by
      unfold resampling_to_t1w_32k
      simp [hf]
    rw [hfull] at hx
    obtain ⟨res, hres, hx⟩ := List.mem_flatMap.1 hx
    refine fun t ht => ⟨res, hres, ?_⟩
    rcases List.mem_append.1 hx with hx | hx
    · rcases List.mem_append.1 hx with hx | hx
      · split at hx
        · simp only [List.mem_cons, List.not_mem_nil, or_false] at hx
          subst hx
          simp only [Action.meshTargets, List.mem_cons, List.not_mem_nil,
            or_false] at ht
          exact ht
        · cases hx
      · unfold add_anat_images_to_spec_files at hx
        obtain ⟨m, hm, hx⟩ := List.mem_flatMap.1 hx
        simp only [List.mem_cons, List.not_mem_nil, or_false] at hm hx
        subst hm
        subst hx
        simp only [Action.meshTargets, List.mem_cons, List.not_mem_nil,
          or_false] at ht
        exact ht
    · exact targets_of_resample_to_native x env "T1wNative"
        (native_low_res_name res) (reg_sphere_choice regName) hx t ht

/-- A successfully constructed `Settings` with `skip_main_wf` set also has
the resample flag set: resample-only mode is only ever selected under
`--resample-to-T1w32k`. -/
theorem skip_main_wf_implies_resample (a : InitArgs) (s : SettingsModel)
    (hs : (settings_construct a).1 = Except.ok s)
    (hskip : s.skipMainWf = true) : s.resample = true := by
  unfold settings_construct at hs
  rcases hsr : set_registration_mode a.surfReg a.msm with e | pr
  · rw [hsr] at hs
    exact Except.noConfusion hs
  · obtain ⟨regName, msmConfig⟩ := pr
    rw [hsr] at hs
    cases hknown : a.fsSubjectsDirKnown <;> rw [hknown] at hs
    · exact Except.noConfusion hs
    · cases hfold : a.fsFolderExists <;> rw [hfold] at hs
      · exact Except.noConfusion hs
      · rcases hdr : define_registration_settings a.regConfig
            a.readNonlinXfm a.readLinXfm with e | xfms <;> rw [hdr] at hs
        · exact Except.noConfusion hs
        · rcases hrb : has_been_run_before a.pathExists a.resample a.marker
              a.mkdirOk with _ | _ | _ | _ <;> rw [hrb] at hs
          · -- fullPipeline: skipMainWf would be false
            have h := Except.ok.inj hs
            rw [← h] at hskip
            exact absurd hskip (by simp)
          · -- resampleOnly: only reachable with the resample flag set
            have hres : a.resample = true := by
              unfold has_been_run_before at hrb
              split_ifs at hrb
              all_goals simp_all
            have h := Except.ok.inj hs
            rw [← h]
            exact hres
          · exact Except.noConfusion hs
          · exact Except.noConfusion hs

/-- Claim C8: when resample-only mode was selected, the main workflow does
not execute - the run is exactly the T1w native-resolution resampling - and
every mesh-space write of the run goes to a `Native{res}k_fs_LR`
destination space; no previously built mesh space is written. -/
theorem resample_only_frame (a : InitArgs) (env : RunEnv)
    (s : SettingsModel) (hs : (settings_construct a).1 = Except.ok s)
    (hskip : s.skipMainWf = true) :
    run_ciftify_recon_all env s = resampling_to_t1w_32k env s.regName ∧
    (∀ x ∈ (run_ciftify_recon_all env s).1, ∀ t ∈ x.meshTargets,
      ∃ res ∈ env.lowRes, t = native_low_res_name res) := by
  have hres := skip_main_wf_implies_resample a s hs hskip
  have heq : run_ciftify_recon_all env s =
      resampling_to_t1w_32k env s.regName := by
    unfold run_ciftify_recon_all
    simp [hskip, hres]
  refine ⟨heq, ?_⟩
  rw [heq]
  exact resampling_to_t1w_32k_targets env s.regName

/-- Witness for C8: a subject with complete previous output re-run with the
resample flag executes exactly the resampling step. -/
theorem resample_only_frame_witness :
    run_ciftify_recon_all
      { subjectId := "sub-01", subjectPath := "/work/sub-01",
        lowRes := ["32"], dscalars := [], labels := [],
        labelPresent := fun _ _ _ => false,
        leftLabelPresent := fun _ _ => false,
        dlabelPresent := fun _ _ => false,
        fileExists := fun _ => true, folderPresent := fun _ => false,
        roiTemplatePresent := false, colinFlatPresent := false }
      { regName := "FS", msmConfig := none, resample := true,
        userXfms := (none, none), skipMainWf := true } =
      resampling_to_t1w_32k
        { subjectId := "sub-01", subjectPath := "/work/sub-01",
          lowRes := ["32"], dscalars := [], labels := [],
          labelPresent := fun _ _ _ => false,
          leftLabelPresent := fun _ _ => false,
          dlabelPresent := fun _ _ => false,
          fileExists := fun _ => true, folderPresent := fun _ => false,
          roiTemplatePresent := false, colinFlatPresent := false }
        "FS" :=
  (resample_only_frame
    { surfReg := "FS",
      msm := { msmAvailable := true, userConfig := none,
               userConfigExists := false, defaultConfig := "conf",
               configLines := [], msmStderr := [] },
      regConfig := { hasSrcDir := true, hasDestDir := true,
                     hasXfmsDir := true, readable := fun _ => true },
      readNonlinXfm := none, readLinXfm := none,
      fsSubjectsDirKnown := true, fsFolderExists := true,
      resample := true, pathExists := true, marker := true,
      mkdirOk := true }
    { subjectId := "sub-01", subjectPath := "/work/sub-01",
      lowRes := ["32"], dscalars := [], labels := [],
      labelPresent := fun _ _ _ => false,
      leftLabelPresent := fun _ _ => false,
      dlabelPresent := fun _ _ => false,
      fileExists := fun _ => true, folderPresent := fun _ => false,
      roiTemplatePresent := false, colinFlatPresent := false }
    { regName := "FS", msmConfig := none, resample := true,
      userXfms := (none, none), skipMainWf := true }
    rfl rfl).1

end CiftifyReconAll
